import Mathlib

/-!
Shallow embedding of the generic SQL persistence core of
`src/backend/sql/gnc-backend-sql.cpp` (and its header), together with proofs
about the column-type handlers, the statement builder, the commit/load
orchestration and the schema-version manager.

Conventions of the embedding:
* a database result row is an association list from column name to `GValue`;
  a column that is SQL NULL is simply absent from the row, so
  `gnc_sql_row_get_value_at_col_name` returns `none` for it, exactly like the
  C function returns a null `GValue*`;
* the side effect of a handler's load function (calling the property setter)
  is made explicit: the Lean function returns `none` when the C code performs
  no setter call and `some v` when it writes `v`;
* engine collaborators that live outside this repository slice
  (`gnc_iso8601_to_timespec_gmt`, `timespec_to_gdate`, the connection's
  quoting primitive, the commit callbacks of the object plugins) are either
  function parameters or recorded symbolically in the result.
-/

namespace GncSql

/-- GLib value as it reaches the column handlers: the physical cell value of a
result row.  A string `GValue` can hold a null string pointer, which is
distinct from the cell being absent. -/
inductive GValue where
  | gvInt (n : Int)
  | gvUInt (n : Int)
  | gvLong (n : Int)
  | gvULong (n : Int)
  | gvInt64 (n : Int)
  | gvUInt64 (n : Int)
  | gvString (s : Option String)
  | gvOther (typeName : String)
deriving DecidableEq, Repr

/-- Result row: column name to value.  An SQL NULL column is absent. -/
abbrev Row := List (String × GValue)

/-- Embeds `gnc_sql_row_get_value_at_col_name`: null `GValue*` is `none`. -/
def gnc_sql_row_get_value_at_col_name : Row → String → Option GValue
  | [], _ => none
  | (k, v) :: rest, col =>
    if k = col then some v else gnc_sql_row_get_value_at_col_name rest col

/-- Accumulates the decimal digits of `g_ascii_strtoll`, stopping at the first
non-digit character. -/
def parseDigits : List Char → Nat → Nat
  | [], acc => acc
  | c :: rest, acc =>
    if c.isDigit then parseDigits rest (acc * 10 + (c.toNat - 48)) else acc

/-- Embeds `g_ascii_strtoll (s, NULL, 10)` (glib collaborator): skip leading
whitespace, optional sign, then decimal digits up to the first non-digit. -/
def g_ascii_strtoll (s : String) : Int :=
  let cs := s.data.dropWhile (fun c =>
    c = ' ' || c = Char.ofNat 9 || c = Char.ofNat 10 || c = Char.ofNat 13)
  match cs with
  | c :: rest =>
    if c = '-' then - (parseDigits rest 0 : Int)
    else if c = '+' then (parseDigits rest 0 : Int)
    else (parseDigits cs 0 : Int)
  | [] => 0

/-- Embeds `gnc_sql_get_integer_value`: accepts every physical integer width
and decimal text; anything else (including a null string) yields 0. -/
def gnc_sql_get_integer_value : GValue → Int
  | .gvInt n => n
  | .gvUInt n => n
  | .gvLong n => n
  | .gvULong n => n
  | .gvInt64 n => n
  | .gvUInt64 n => n
  | .gvString (some s) => g_ascii_strtoll s
  | .gvString none => 0
  | .gvOther _ => 0

/-- Engine `gnc_numeric`: a fixed-point rational, numerator and denominator. -/
structure GncNumeric where
  num : Int
  denom : Int
deriving DecidableEq, Repr

/-- Engine `gnc_numeric_create`: sets the two fields. -/
def gnc_numeric_create (num denom : Int) : GncNumeric := ⟨num, denom⟩

/-- Engine `gnc_numeric_zero`: numerator 0, denominator 1. -/
def gnc_numeric_zero : GncNumeric := ⟨0, 1⟩

/-- Embeds `load_numeric`.  The two physical columns `<name>_num` and
`<name>_denom` are looked up; a missing column sets the `isNull` flag (and a
default 0 resp. 1 for the local variable); the setter is invoked only when
`isNull` stayed false.  The returned value is `some n` when the C code calls
the setter with `n` and `none` when it performs no setter call. -/
def load_numeric (row : Row) (colName : String) : Option GncNumeric :=
  let numVal := gnc_sql_row_get_value_at_col_name row (colName ++ "_num")
  let isNull1 := numVal.isNone
  let num := match numVal with
    | none => 0
    | some v => gnc_sql_get_integer_value v
  let denomVal := gnc_sql_row_get_value_at_col_name row (colName ++ "_denom")
  let isNull2 := denomVal.isNone
  let denom := match denomVal with
    | none => 1
    | some v => gnc_sql_get_integer_value v
  let n := gnc_numeric_create num denom
  if isNull1 || isNull2 then none else some n

/-- Engine `Timespec`: seconds and nanoseconds. -/
structure Timespec where
  tv_sec : Int
  tv_nsec : Int
deriving DecidableEq, Repr

/-- Engine `timespecFromTime64`: seconds from the epoch value, nanoseconds 0. -/
def timespecFromTime64 (t : Int) : Timespec := ⟨t, 0⟩

/-- Character at byte position `i` of the fixed-format timestamp text; the C
code indexes the buffer directly. -/
def charAt (s : String) (i : Nat) : Char := s.data.getD i (Char.ofNat 0)

/-- Embeds the `g_strdup_printf` reshuffling in `load_timespec` that turns the
14-character `YYYYMMDDHHMMSS` text into `YYYY-MM-DD HH:MM:SS`. -/
def timespec_text_to_iso (s : String) : String :=
  String.mk [charAt s 0, charAt s 1, charAt s 2, charAt s 3, '-',
             charAt s 4, charAt s 5, '-', charAt s 6, charAt s 7, ' ',
             charAt s 8, charAt s 9, ':', charAt s 10, charAt s 11, ':',
             charAt s 12, charAt s 13]

/-- Embeds `load_timespec`.  `ts` starts as the zero timespec and `isOK` as
false; a NULL cell sets `isOK` without touching `ts`, an int64 cell converts
the epoch value, a non-null string cell is reformatted and handed to the
engine's `gnc_iso8601_to_timespec_gmt` (a collaborator outside this slice,
passed in as `iso`).  The result is `some ts` exactly when the C code reaches
the setter call with `ts`. -/
def load_timespec (iso : String → Timespec) (row : Row) (colName : String) :
    Option Timespec :=
  match gnc_sql_row_get_value_at_col_name row colName with
  | none => some ⟨0, 0⟩
  | some (.gvInt64 t) => some (timespecFromTime64 t)
  | some (.gvString none) => none
  | some (.gvString (some s)) => some (iso (timespec_text_to_iso s))
  | some _ => none

/-- Date value handed to the setter by `load_date`: either the engine's
`timespec_to_gdate` applied to an epoch second value (collaborator, recorded
symbolically), or `g_date_new_dmy (day, month, year)` from the `YYYYMMDD`
text encoding. -/
inductive DateSet where
  | fromTime (t : Int)
  | dmy (day month year : Int)
deriving DecidableEq, Repr

/-- Substring of `len` characters starting at `start`, as copied out by the
`strncpy` calls of `load_date`. -/
def substrChars (s : String) (start len : Nat) : String :=
  String.mk ((s.data.drop start).take len)

/-- Embeds `load_date`.  A NULL cell performs no setter call; an int64 cell
converts through `timespec_to_gdate`; a non-null string cell is split as
`YYYYMMDD` via `atoi` and the setter runs only when at least one of year,
month, day is nonzero. -/
def load_date (row : Row) (colName : String) : Option DateSet :=
  match gnc_sql_row_get_value_at_col_name row colName with
  | none => none
  | some (.gvInt64 t) => some (.fromTime t)
  | some (.gvString none) => none
  | some (.gvString (some s)) =>
    let year := g_ascii_strtoll (substrChars s 0 4)
    let month := g_ascii_strtoll (substrChars s 4 2)
    let day := g_ascii_strtoll (substrChars s 6 2)
    if year ≠ 0 ∨ month ≠ 0 ∨ day ≠ 0 then some (.dmy day month year)
    else none
  | some _ => none

/-! ## Column descriptors, the serialize direction and the statement builder -/

/-- Column kind tags, as registered by `register_standard_col_type_handlers`. -/
def CT_STRING : String := "ct_string"

def CT_GUID : String := "ct_guid"

def CT_INT : String := "ct_int"

def CT_INT64 : String := "ct_int64"

def CT_TIMESPEC : String := "ct_timespec"

def CT_GDATE : String := "ct_gdate"

def CT_NUMERIC : String := "ct_numeric"

def CT_DOUBLE : String := "ct_double"

def CT_BOOLEAN : String := "ct_boolean"

/-- Column flag bits from the `ColumnFlags` enum. -/
def COL_PKEY : Nat := 1

def COL_NNUL : Nat := 2

def COL_UNIQUE : Nat := 4

def COL_AUTOINC : Nat := 8

/-- Embeds `GncSqlColumnTableEntry`.  The accessor binding fields
(`gobj_param_name`, `qof_param_name`, getter/setter pointers) are not carried:
accessor resolution is modelled by the object map below, keyed by the
descriptor's column name. -/
structure GncSqlColumnTableEntry where
  col_name : String
  col_type : String
  size : Nat
  flags : Nat
deriving DecidableEq, Repr

/-- Engine `GDate` as the serializers see it: validity flag plus the
year/month/day fields read by `g_date_get_year` and friends. -/
structure GDateVal where
  g_valid : Bool
  year : Nat
  month : Nat
  day : Nat
deriving DecidableEq, Repr

/-- Property value of one object field, as produced by the accessor a
descriptor resolves (`g_object_get` or the getter function).  Pointer-typed
accessors can yield null, hence the `Option`s.  Values whose textual rendering
is produced by an engine/library collaborator (the double's `ostream` format,
the GUID's 32-hex-character encoding, the backend's timestamp format) carry
that rendering as data. -/
inductive PropVal where
  | pvStr (s : Option String)
  | pvInt (n : Int)
  | pvInt64 (n : Int)
  | pvDouble (rendered : Option String)
  | pvGuid (rendered : Option String)
  | pvTimespec (sec nsec : Int) (rendered : String)
  | pvDate (date : Option GDateVal)
  | pvNumeric (n : GncNumeric)
  | pvNone
deriving DecidableEq, Repr

/-- Object under serialization: resolves each descriptor's accessor to the
property value.  `pvNone` stands for an accessor that does not resolve. -/
abbrev GObject := String → PropVal

/-- Zero-padded decimal rendering, as `std::setfill` + `std::setw` produce. -/
def padNat (width n : Nat) : String :=
  let s := toString n
  if s.length < width then String.mk (List.replicate (width - s.length) (Char.ofNat 48)) ++ s
  else s

/-- Embeds the `add_value_to_vec<char*>` specialization (the string handler's
serializer): a null string appends nothing. -/
def add_string_to_vec (colName : String) (v : PropVal) : List (String × String) :=
  match v with
  | .pvStr (some s) => [(colName, s)]
  | _ => []

/-- Embeds `add_value_to_vec<int>` (used by both the int and the boolean
handler): a value type always appends one pair; a missing getter leaves the
`static_cast<T>(0)` default. -/
def add_int_to_vec (colName : String) (v : PropVal) : List (String × String) :=
  match v with
  | .pvInt n => [(colName, toString n)]
  | _ => [(colName, "0")]

/-- Embeds `add_value_to_vec<int64_t>`. -/
def add_int64_to_vec (colName : String) (v : PropVal) : List (String × String) :=
  match v with
  | .pvInt64 n => [(colName, toString n)]
  | _ => [(colName, "0")]

/-- Embeds `add_value_to_vec<double*>`: pointer type, null appends nothing;
the `ostream` rendering of the double is carried in the property value. -/
def add_double_to_vec (colName : String) (v : PropVal) : List (String × String) :=
  match v with
  | .pvDouble (some txt) => [(colName, txt)]
  | _ => []

/-- Embeds `add_value_to_vec<GncGUID>` via `add_guid_to_vec`: null appends
nothing, else the fixed-length hex rendering of `guid_to_string`. -/
def add_guid_to_vec (colName : String) (v : PropVal) : List (String × String) :=
  match v with
  | .pvGuid (some g) => [(colName, g)]
  | _ => []

/-- Embeds `add_timespec_to_vec`: appends the backend-format text only when
the timespec is not the zero timespec. -/
def add_timespec_to_vec (colName : String) (v : PropVal) : List (String × String) :=
  match v with
  | .pvTimespec sec nsec txt =>
    if sec ≠ 0 ∨ nsec ≠ 0 then [(colName, txt)] else []
  | _ => []

/-- Embeds `add_date_to_vec`: a null or invalid `GDate` appends nothing, else
the zero-padded `YYYYMMDD` rendering. -/
def add_date_to_vec (colName : String) (v : PropVal) : List (String × String) :=
  match v with
  | .pvDate (some d) =>
    if d.g_valid then [(colName, padNat 4 d.year ++ padNat 2 d.month ++ padNat 2 d.day)]
    else []
  | _ => []

/-- Embeds `add_numeric_to_vec`: two pairs `<name>_num`, `<name>_denom` are
always appended; a missing getter falls back to `gnc_numeric_zero`. -/
def add_numeric_to_vec (colName : String) (v : PropVal) : List (String × String) :=
  let n := match v with
    | .pvNumeric n => n
    | _ => gnc_numeric_zero
  [(colName ++ "_num", toString n.num), (colName ++ "_denom", toString n.denom)]

/-- Embeds `get_handler` restricted to its serialize member, for the nine
handlers installed by `register_standard_col_type_handlers`.  An unregistered
tag is a fatal `g_assert` in the source; the model appends nothing there. -/
def get_handler_add_value (colType : String) : String → PropVal → List (String × String) :=
  if colType = CT_STRING then add_string_to_vec
  else if colType = CT_BOOLEAN then add_int_to_vec
  else if colType = CT_INT then add_int_to_vec
  else if colType = CT_INT64 then add_int64_to_vec
  else if colType = CT_DOUBLE then add_double_to_vec
  else if colType = CT_GUID then add_guid_to_vec
  else if colType = CT_TIMESPEC then add_timespec_to_vec
  else if colType = CT_GDATE then add_date_to_vec
  else if colType = CT_NUMERIC then add_numeric_to_vec
  else fun _ _ => []

/-- Embeds `get_object_values`: iterate the descriptor table, skip
auto-increment columns, let each descriptor's handler append its pairs. -/
def get_object_values (obj : GObject) : List GncSqlColumnTableEntry → List (String × String)
  | [] => []
  | e :: rest =>
    (if e.flags &&& COL_AUTOINC = 0
     then get_handler_add_value e.col_type e.col_name (obj e.col_name)
     else []) ++ get_object_values obj rest

/-- Statement handle produced by the builders: the SQL text assembled so far
plus the column/value pairs later passed to
`gnc_sql_statement_add_where_cond`. -/
structure GncSqlStatement where
  sql : String
  whereConds : List (String × String)
deriving DecidableEq, Repr

/-- Embeds the `SET` rendering loop of `build_update_statement`, including its
quirk: the comma is suppressed whenever the pair compares equal to the first
pair (`col_value != *values.begin()`), not only on the first iteration. -/
def render_set_values (quote : String → String) (values : List (String × String)) : String :=
  values.foldl (fun acc cv =>
    acc ++ (if values.head? = some cv then "" else ",") ++ cv.1 ++ "=" ++ quote cv.2) ""

/-- Embeds `build_update_statement`.  `quote` is the connection's
string-quoting primitive (collaborator).  The where condition is what remains
of the serialized pair list after `values.erase(values.begin() + 1,
values.end())`, i.e. exactly the first pair (the erase is undefined in the
source when the list is empty; `List.take 1` yields `[]` there). -/
def build_update_statement (quote : String → String) (table_name : String)
    (obj : GObject) (table : List GncSqlColumnTableEntry) : GncSqlStatement :=
  let values := get_object_values obj table
  { sql := "UPDATE " ++ table_name ++ " SET " ++ render_set_values quote values,
    whereConds := values.take 1 }

/-! ## Object backend registry, per-instance commit, initial load order -/

/-- Protocol version every registered bundle must carry
(`GNC_SQL_BACKEND_VERSION`). -/
def GNC_SQL_BACKEND_VERSION : Nat := 1

/-- Embeds `GncSqlObjectBackend` with the callbacks the orchestration paths
under study consult.  A callback pointer is modelled by a `has…` flag; the
boolean a commit callback would return (its database work happening inside the
enclosing transaction) is carried as `commitResult`. -/
structure GncSqlObjectBackend where
  version : Nat
  hasCommit : Bool
  commitResult : Bool
  hasInitialLoad : Bool
deriving DecidableEq, Repr

/-- Registry of `OBEEntry` tuples: (type name, bundle), in insertion order. -/
abbrev Registry := List (String × GncSqlObjectBackend)

/-- Relevant fields of the `sql_backend` callback structure. -/
structure SqlBackendData where
  is_known : Bool
  is_ok : Bool
deriving DecidableEq, Repr

/-- Observable actions of one `gnc_sql_commit_edit` run: connection
transaction calls and commit-callback invocations. -/
inductive CommitEvent where
  | evBeginTx
  | evRollbackTx
  | evCommitTx
  | evCommitCallback (typeName : String)
deriving DecidableEq, Repr

/-- Backend error codes set on the `qof_backend_set_error` slot here. -/
inductive QofBackendError where
  | ERR_BACKEND_READONLY
  | ERR_BACKEND_SERVER_ERR
deriving DecidableEq, Repr

/-- Embeds the static `commit` helper: skip on protocol-version mismatch
(`g_return_if_fail`), on a type-name mismatch, or when an earlier bundle
already handled the instance; otherwise run the commit callback when there is
one. -/
def commit_one (entry : String × GncSqlObjectBackend) (instType : String)
    (bd : SqlBackendData) : SqlBackendData × List CommitEvent :=
  if entry.2.version ≠ GNC_SQL_BACKEND_VERSION then (bd, [])
  else if entry.1 ≠ instType then (bd, [])
  else if bd.is_known then (bd, [])
  else if entry.2.hasCommit then
    (⟨true, entry.2.commitResult⟩, [.evCommitCallback entry.1])
  else (bd, [])

/-- The `for (auto entry : backend_registry) commit(entry, &be_data)` loop. -/
def commit_scan (registry : Registry) (instType : String) (bd : SqlBackendData) :
    SqlBackendData × List CommitEvent :=
  match registry with
  | [] => (bd, [])
  | e :: rest =>
    let r := commit_one e instType bd
    let r2 := commit_scan rest instType r.1
    (r2.1, r.2 ++ r2.2)

/-- State visible to `gnc_sql_commit_edit`: the book's read-only and dirty
flags, the backend's loading flag, the instance's dirty/destroying flags, the
error slot, and the connection's answer to `begin_transaction`. -/
structure CommitEditState where
  bookReadOnly : Bool
  loading : Bool
  instDirty : Bool
  instDestroying : Bool
  bookDirty : Bool
  backendError : Option QofBackendError
  beginTxOk : Bool
deriving DecidableEq, Repr

/-- Embeds `gnc_sql_commit_edit` for an instance of type `instType`.  Returns
the updated state and the trace of connection/callback events.  Mirrors the
source's order of checks: read-only book, loading flag, the PriceDB special
case, the dirty/destroying gate, begin-transaction failure, then the registry
scan with the unknown-type, callback-failure and success outcomes. -/
def gnc_sql_commit_edit (registry : Registry) (st : CommitEditState)
    (instType : String) : CommitEditState × List CommitEvent :=
  if st.bookReadOnly then
    ({ st with backendError := some .ERR_BACKEND_READONLY }, [.evRollbackTx])
  else if st.loading then
    ({ st with instDirty := false }, [])
  else if instType = "PriceDB" then
    ({ st with instDirty := false, bookDirty := false }, [])
  else if !st.instDirty && !st.instDestroying then (st, [])
  else if !st.beginTxOk then (st, [.evBeginTx])
  else
    let r := commit_scan registry instType ⟨false, true⟩
    if !r.1.is_known then
      ({ st with bookDirty := false, instDirty := false },
       .evBeginTx :: r.2 ++ [.evRollbackTx])
    else if !r.1.is_ok then (st, .evBeginTx :: r.2 ++ [.evRollbackTx])
    else
      ({ st with bookDirty := false, instDirty := false },
       .evBeginTx :: r.2 ++ [.evCommitTx])

/-- The fixed load-order list (`GNC_ID_BOOK`, `GNC_ID_COMMODITY`,
`GNC_ID_ACCOUNT`, `GNC_ID_LOT`, which are the engine strings below). -/
def fixed_load_order : List String := ["Book", "Commodity", "Account", "Lot"]

/-- Embeds the registry lookup `std::find_if` keyed on the entry's type name.
The source dereferences the iterator before its `end()` check (undefined when
the type is unregistered); the model gives the guard its evident meaning of
skipping an unregistered type. -/
def find_backend : Registry → String → Option GncSqlObjectBackend
  | [], _ => none
  | (ty, obe) :: rest, wanted =>
    if ty = wanted then some obe else find_backend rest wanted

/-- Whether one of the two ordered-list loops of `gnc_sql_load` invokes
`initial_load` for `ty`: the type is registered and its bundle has an
`initial_load` callback. -/
def listed_runs (registry : Registry) (ty : String) : Bool :=
  match find_backend registry ty with
  | some obe => obe.hasInitialLoad
  | none => false

/-- Trace of the `initial_load` invocations of one ordered-list loop. -/
def listed_load (registry : Registry) (order : List String) : List String :=
  order.filter (listed_runs registry)

/-- Embeds the static `initial_load` helper used by the final registry sweep:
protocol-version guard, skip types already covered by either ordered list,
then invoke the callback when present. -/
def initial_load_entry (other : List String) (e : String × GncSqlObjectBackend) : Bool :=
  if e.2.version ≠ GNC_SQL_BACKEND_VERSION then false
  else if e.1 ∈ fixed_load_order then false
  else if e.1 ∈ other then false
  else e.2.hasInitialLoad

/-- Embeds the `initial_load` ordering of `gnc_sql_load` (initial-load case):
the fixed-order loop, then the extension-order loop (`other`, as installed by
`gnc_sql_set_load_order`), then the sweep over the whole registry in
insertion order.  The trace lists the type names whose `initial_load` runs,
in invocation order. -/
def gnc_sql_load_trace (registry : Registry) (other : List String) : List String :=
  listed_load registry fixed_load_order ++ listed_load registry other ++
    (registry.filter (initial_load_entry other)).map (fun e => e.1)

/-! ## Schema version manager -/

/-- The single-quote character, used when splicing text into SQL literals. -/
def sqc : String := String.singleton (Char.ofNat 39)

/-- The in-memory half of the version map (`be->versions`), plus the backend
state it consults: the pristine-database flag and the server-error slot. -/
structure VersionState where
  is_pristine_db : Bool
  versions : List (String × Int)
  errOccurred : Bool
deriving DecidableEq, Repr

/-- Embeds `g_hash_table_lookup` + `GPOINTER_TO_INT`: a missing key reads 0. -/
def hash_lookup : List (String × Int) → String → Int
  | [], _ => 0
  | (k, v) :: rest, key => if k = key then v else hash_lookup rest key

/-- Embeds `g_hash_table_insert`: replace the binding if present, else add. -/
def hash_insert : List (String × Int) → String → Int → List (String × Int)
  | [], key, v => [(key, v)]
  | (k, v2) :: rest, key, v =>
    if k = key then (key, v) :: rest else (k, v2) :: hash_insert rest key v

/-- Embeds `gnc_sql_get_table_version`: 0 whenever the database is pristine,
otherwise the cached value (0 when absent). -/
def gnc_sql_get_table_version (st : VersionState) (table_name : String) : Int :=
  if st.is_pristine_db then 0 else hash_lookup st.versions table_name

/-- Text of the `INSERT INTO versions VALUES('<t>',<v>)` statement. -/
def insertVersionSql (table_name : String) (version : Int) : String :=
  "INSERT INTO versions VALUES(" ++ sqc ++ table_name ++ sqc ++ "," ++
    toString version ++ ")"

/-- Text of the `UPDATE versions SET table_version=<v> WHERE
table_name='<t>'` statement. -/
def updateVersionSql (table_name : String) (version : Int) : String :=
  "UPDATE versions SET table_version=" ++ toString version ++
    " WHERE table_name=" ++ sqc ++ table_name ++ sqc

/-- Result of `gnc_sql_set_table_version`: the returned boolean, the updated
backend state, and the SQL statements handed to
`gnc_sql_execute_nonselect_sql`. -/
structure SetVersionResult where
  ret : Bool
  state : VersionState
  stmts : List String
deriving DecidableEq, Repr

/-- Embeds `gnc_sql_set_table_version`.  `exec` is the connection's response
to `gnc_sql_execute_nonselect_sql` (-1 meaning statement creation or
execution failed).  The `g_return_val_if_fail (version > 0, FALSE)` guard
returns false untouched; otherwise the current version is read through the
pristine-aware getter, a statement is issued only on a difference (INSERT
when the current version reads 0, UPDATE otherwise), a -1 status only sets
the server-error slot, and the cache is updated unconditionally before
returning true. -/
def gnc_sql_set_table_version (exec : String → Int) (st : VersionState)
    (table_name : String) (version : Int) : SetVersionResult :=
  if ¬ 0 < version then ⟨false, st, []⟩
  else
    let cur := gnc_sql_get_table_version st table_name
    if cur ≠ version then
      let sql := if cur = 0 then insertVersionSql table_name version
                 else updateVersionSql table_name version
      let status := exec sql
      let st2 := if status = -1 then { st with errOccurred := true } else st
      ⟨true, { st2 with versions := hash_insert st2.versions table_name version }, [sql]⟩
    else
      ⟨true, { st with versions := hash_insert st.versions table_name version }, []⟩

/-! ## Helper lemmas -/

/-- Inserting a binding makes the lookup read it back. -/
theorem hash_lookup_insert (m : List (String × Int)) (k : String) (v : Int) :
    hash_lookup (hash_insert m k v) k = v := by
  induction m with
  | nil => simp [hash_insert, hash_lookup]
  | cons hd tl ih =>
    obtain ⟨k2, v2⟩ := hd
    by_cases h : k2 = k
    · simp [hash_insert, h, hash_lookup]
    · simp [hash_insert, h, hash_lookup, ih]

/-- A registry scan over entries none of which carries the instance's type
leaves the callback data untouched and invokes nothing. -/
theorem commit_scan_no_match (reg : Registry) (ty : String) (bd : SqlBackendData)
    (h : ∀ e ∈ reg, e.1 ≠ ty) : commit_scan reg ty bd = (bd, []) := by
  induction reg with
  | nil => rfl
  | cons e rest ih =>
    have h1 : e.1 ≠ ty := h e (by simp)
    have hone : commit_one e ty bd = (bd, []) := by
      unfold commit_one
      by_cases hv : e.2.version = GNC_SQL_BACKEND_VERSION
      · simp [hv, h1]
      · simp [hv]
    have hrest := ih (fun e2 he2 => h e2 (by simp [he2]))
    simp [commit_scan, hone, hrest]

/-- A type surviving the guards of the registry-sweep `initial_load` helper
is in neither ordered list. -/
theorem initial_load_entry_not_listed (other : List String)
    (e : String × GncSqlObjectBackend) (h : initial_load_entry other e = true) :
    e.1 ∉ fixed_load_order ∧ e.1 ∉ other := by
  unfold initial_load_entry at h
  by_cases h1 : e.2.version ≠ GNC_SQL_BACKEND_VERSION
  · simp [h1] at h
  · by_cases h2 : e.1 ∈ fixed_load_order
    · simp [h1, h2] at h
    · by_cases h3 : e.1 ∈ other
      · simp [h1, h2, h3] at h
      · exact ⟨h2, h3⟩

/-- Every type in the registry-sweep part of the load trace is in neither
ordered list. -/
theorem mem_sweep_not_listed (registry : Registry) (other : List String)
    (x : String)
    (hx : x ∈ (registry.filter (initial_load_entry other)).map (fun e => e.1)) :
    x ∉ fixed_load_order ∧ x ∉ other := by
  obtain ⟨e, he, rfl⟩ := List.mem_map.mp hx
  exact initial_load_entry_not_listed other e (List.mem_filter.mp he).2

/-! ## Claims -/

/-- C1 counterexample: the fixed-point-rational load on a row holding
`amt_num = 7` and no `amt_denom` performs no setter call at all — it does not
set the property to the rational 7/1 as claimed. -/
theorem C1_counterexample :
    load_numeric [("amt_num", .gvInt64 7)] "amt" = none ∧
    load_numeric [("amt_num", .gvInt64 7)] "amt" ≠ some (gnc_numeric_create 7 1) := by
  decide

/-- C1 (amended): for every fixed-point-rational descriptor, loading a row
that contains the `<name>_num` column but no `<name>_denom` column leaves the
target property unmodified — the handler defaults the local denominator to 1
but its null flag suppresses the setter call whenever either column is
absent. -/
theorem C1_theorem (row : Row) (name : String)
    (hnum : (gnc_sql_row_get_value_at_col_name row (name ++ "_num")).isSome = true)
    (hdenom : gnc_sql_row_get_value_at_col_name row (name ++ "_denom") = none) :
    load_numeric row name = none := by
  obtain ⟨v, hv⟩ := Option.isSome_iff_exists.mp hnum
  simp [load_numeric, hv, hdenom]

/-- C1 witness: the amended theorem applied to the concrete one-column row. -/
theorem C1_witness :
    (gnc_sql_row_get_value_at_col_name [("amt_num", GValue.gvInt64 7)]
      ("amt" ++ "_num")).isSome = true ∧
    gnc_sql_row_get_value_at_col_name [("amt_num", GValue.gvInt64 7)]
      ("amt" ++ "_denom") = none ∧
    load_numeric [("amt_num", GValue.gvInt64 7)] "amt" = none :=
  ⟨by decide, by decide, C1_theorem _ _ (by decide) (by decide)⟩

/-- C2 counterexample: the timestamp handler's load on a row where the column
is null (absent) calls the setter with the zero timespec instead of leaving
the target property unmodified. -/
theorem C2_counterexample :
    load_timespec (fun _ => ⟨0, 0⟩) [] "post_date" = some ⟨0, 0⟩ := by
  decide

/-- C2 (amended): on a null column the calendar-date handler's load leaves
the target property unmodified (no setter call), but the timestamp handler's
load invokes the setter with the zero timespec — its `isOK` flag is set even
for an absent value. -/
theorem C2_theorem (iso : String → Timespec) (row : Row) (col : String)
    (h : gnc_sql_row_get_value_at_col_name row col = none) :
    load_timespec iso row col = some ⟨0, 0⟩ ∧ load_date row col = none := by
  constructor
  · simp [load_timespec, h]
  · simp [load_date, h]

/-- C2 witness: the amended theorem applied to a concrete row without the
requested column. -/
theorem C2_witness :
    gnc_sql_row_get_value_at_col_name [("other", GValue.gvInt64 5)] "post_date" = none ∧
    (load_timespec (fun _ => ⟨0, 0⟩) [("other", GValue.gvInt64 5)] "post_date" = some ⟨0, 0⟩ ∧
     load_date [("other", GValue.gvInt64 5)] "post_date" = none) :=
  ⟨by decide, C2_theorem _ _ _ (by decide)⟩

/-- C6 counterexample: in pristine-database mode the cached version of "foo"
already equals the requested version 2, yet `set_table_version` still issues
a statement, because the equality test goes through the pristine-aware
getter, which reads 0. -/
theorem C6_counterexample :
    hash_lookup (VersionState.mk true [("foo", 2)] false).versions "foo" = 2 ∧
    (gnc_sql_set_table_version (fun _ => 0)
      (VersionState.mk true [("foo", 2)] false) "foo" 2).stmts ≠ [] := by
  decide

/-- C6 (amended): for every table and positive version, `set_table_version`
returns true and afterwards the cache maps the table to the requested
version; it issues no statement when the backend is not pristine and the
cached version already equals the requested one; and whenever the
pristine-aware current version differs from the requested one (always the
case in pristine mode) it issues exactly one statement — an INSERT when the
current version reads 0 and an UPDATE otherwise. -/
theorem C6_theorem (exec : String → Int) (st : VersionState) (t : String)
    (v : Int) (hv : 0 < v) :
    (gnc_sql_set_table_version exec st t v).ret = true ∧
    hash_lookup (gnc_sql_set_table_version exec st t v).state.versions t = v ∧
    (st.is_pristine_db = false → hash_lookup st.versions t = v →
      (gnc_sql_set_table_version exec st t v).stmts = []) ∧
    (gnc_sql_get_table_version st t ≠ v →
      (gnc_sql_set_table_version exec st t v).stmts =
        [if gnc_sql_get_table_version st t = 0 then insertVersionSql t v
         else updateVersionSql t v]) := by
  by_cases hne : gnc_sql_get_table_version st t = v
  · refine ⟨?_, ?_, ?_, ?_⟩
    · simp [gnc_sql_set_table_version, hv, hne]
    · simp [gnc_sql_set_table_version, hv, hne, hash_lookup_insert]
    · intro _ _; simp [gnc_sql_set_table_version, hv, hne]
    · intro h; exact absurd hne h
  · have hp : (gnc_sql_set_table_version exec st t v).stmts =
        [if gnc_sql_get_table_version st t = 0 then insertVersionSql t v
         else updateVersionSql t v] := by
      by_cases hz : gnc_sql_get_table_version st t = 0
      · have h0 : ¬ (0 : Int) = v := hz ▸ hne
        simp [gnc_sql_set_table_version, hv, hne, hz, h0]
      · simp [gnc_sql_set_table_version, hv, hne, hz]
    refine ⟨?_, ?_, ?_, fun _ => hp⟩
    · simp [gnc_sql_set_table_version, hv, hne]
    · by_cases hz : exec (if gnc_sql_get_table_version st t = 0
          then insertVersionSql t v else updateVersionSql t v) = -1 <;>
        simp [gnc_sql_set_table_version, hv, hne, hz, hash_lookup_insert]
    · intro hnp hcache
      exact absurd (by simp [gnc_sql_get_table_version, hnp, hcache]) hne

/-- C6 witness: the amended theorem applied to a non-pristine backend whose
cache already holds the requested version. -/
theorem C6_witness :
    (0 : Int) < 3 ∧
    ((gnc_sql_set_table_version (fun _ => 0)
        (VersionState.mk false [("accounts", 3)] false) "accounts" 3).ret = true ∧
      hash_lookup (gnc_sql_set_table_version (fun _ => 0)
        (VersionState.mk false [("accounts", 3)] false) "accounts" 3).state.versions
        "accounts" = 3 ∧
      ((VersionState.mk false [("accounts", 3)] false).is_pristine_db = false →
        hash_lookup (VersionState.mk false [("accounts", 3)] false).versions "accounts" = 3 →
        (gnc_sql_set_table_version (fun _ => 0)
          (VersionState.mk false [("accounts", 3)] false) "accounts" 3).stmts = []) ∧
      (gnc_sql_get_table_version (VersionState.mk false [("accounts", 3)] false) "accounts" ≠ 3 →
        (gnc_sql_set_table_version (fun _ => 0)
          (VersionState.mk false [("accounts", 3)] false) "accounts" 3).stmts =
          [if gnc_sql_get_table_version
              (VersionState.mk false [("accounts", 3)] false) "accounts" = 0
           then insertVersionSql "accounts" 3 else updateVersionSql "accounts" 3])) :=
  ⟨by decide, C6_theorem (fun _ => 0) (VersionState.mk false [("accounts", 3)] false)
    "accounts" 3 (by decide)⟩

/-- C7: `get_table_version` returns 0 whenever the backend is in
pristine-database mode, regardless of the cache's content. -/
theorem C7_theorem (st : VersionState) (t : String)
    (h : st.is_pristine_db = true) : gnc_sql_get_table_version st t = 0 := by
  simp [gnc_sql_get_table_version, h]

/-- C7 witness: a pristine backend whose cache holds 5 for "foo" still reads
version 0. -/
theorem C7_witness :
    (VersionState.mk true [("foo", 5)] false).is_pristine_db = true ∧
    hash_lookup (VersionState.mk true [("foo", 5)] false).versions "foo" = 5 ∧
    gnc_sql_get_table_version (VersionState.mk true [("foo", 5)] false) "foo" = 0 :=
  ⟨rfl, by decide, C7_theorem _ _ rfl⟩

/-- C8: serializing a fixed-point-rational property holding 7/100 appends
exactly the two pairs `(<name>_num, "7")` then `(<name>_denom, "100")`. -/
theorem C8_theorem (name : String) :
    add_numeric_to_vec name (.pvNumeric (gnc_numeric_create 7 100)) =
      [(name ++ "_num", "7"), (name ++ "_denom", "100")] := by
  rfl

/-- C10: with a positive version and a current version differing from the
requested one, `set_table_version` still returns true and updates the cache
even when the issued statement fails (`exec` returns -1); the failure only
sets the server-error slot (and the pristine flag is untouched), so cache and
persisted table can disagree afterwards. -/
theorem C10_theorem (exec : String → Int) (st : VersionState) (t : String)
    (v : Int) (hv : 0 < v) (hne : gnc_sql_get_table_version st t ≠ v)
    (hfail : exec (if gnc_sql_get_table_version st t = 0
      then insertVersionSql t v else updateVersionSql t v) = -1) :
    (gnc_sql_set_table_version exec st t v).ret = true ∧
    hash_lookup (gnc_sql_set_table_version exec st t v).state.versions t = v ∧
    (gnc_sql_set_table_version exec st t v).state.errOccurred = true ∧
    (gnc_sql_set_table_version exec st t v).state.is_pristine_db =
      st.is_pristine_db := by
  by_cases hz : gnc_sql_get_table_version st t = 0
  · have h0 : ¬ (0 : Int) = v := hz ▸ hne
    simp only [hz, if_true] at hfail
    simp [gnc_sql_set_table_version, hv, hne, hz, h0, hfail, hash_lookup_insert]
  · simp only [hz, if_false] at hfail
    simp [gnc_sql_set_table_version, hv, hne, hz, hfail, hash_lookup_insert]

/-- C10 witness: a failing connection still leaves a true return, an updated
cache and the error slot set. -/
theorem C10_witness :
    (0 : Int) < 1 ∧
    gnc_sql_get_table_version (VersionState.mk false [] false) "accounts" ≠ 1 ∧
    ((gnc_sql_set_table_version (fun _ => -1)
        (VersionState.mk false [] false) "accounts" 1).ret = true ∧
      hash_lookup (gnc_sql_set_table_version (fun _ => -1)
        (VersionState.mk false [] false) "accounts" 1).state.versions "accounts" = 1 ∧
      (gnc_sql_set_table_version (fun _ => -1)
        (VersionState.mk false [] false) "accounts" 1).state.errOccurred = true ∧
      (gnc_sql_set_table_version (fun _ => -1)
        (VersionState.mk false [] false) "accounts" 1).state.is_pristine_db =
        (VersionState.mk false [] false).is_pristine_db) :=
  ⟨by decide, by decide,
    C10_theorem (fun _ => -1) (VersionState.mk false [] false) "accounts" 1
      (by decide) (by decide) rfl⟩

/-- C3: a dirty or to-be-destroyed instance whose type matches no registered
bundle makes `gnc_sql_commit_edit` roll back the transaction it began, and
afterwards both the instance and the book report clean.  The hypotheses state
the path that reaches the transaction: the book is writable, the backend is
not loading, the type is not the special-cased PriceDB, and the connection
accepts the begin. -/
theorem C3_theorem (registry : Registry) (st : CommitEditState) (ty : String)
    (hro : st.bookReadOnly = false) (hld : st.loading = false)
    (hpr : ty ≠ "PriceDB") (hdirty : st.instDirty = true ∨ st.instDestroying = true)
    (hbegin : st.beginTxOk = true)
    (hnone : ∀ e ∈ registry, e.1 ≠ ty) :
    (gnc_sql_commit_edit registry st ty).2 = [.evBeginTx, .evRollbackTx] ∧
    (gnc_sql_commit_edit registry st ty).1.instDirty = false ∧
    (gnc_sql_commit_edit registry st ty).1.bookDirty = false := by
  have hscan := commit_scan_no_match registry ty ⟨false, true⟩ hnone
  have hgate : (!st.instDirty && !st.instDestroying) = false := by
    rcases hdirty with h | h <;> simp [h]
  refine ⟨?_, ?_, ?_⟩ <;>
    simp [gnc_sql_commit_edit, hro, hld, hpr, hgate, hbegin, hscan]

/-- C3 witness: a writable, non-loading backend with a registry that knows
only the Account type commits a dirty Split instance: begin then rollback,
and both dirty flags drop. -/
theorem C3_witness :
    (CommitEditState.mk false false true false true none true).bookReadOnly = false ∧
    ((gnc_sql_commit_edit [("Account", GncSqlObjectBackend.mk 1 true true true)]
        (CommitEditState.mk false false true false true none true) "Split").2 =
      [.evBeginTx, .evRollbackTx] ∧
     (gnc_sql_commit_edit [("Account", GncSqlObjectBackend.mk 1 true true true)]
        (CommitEditState.mk false false true false true none true) "Split").1.instDirty = false ∧
     (gnc_sql_commit_edit [("Account", GncSqlObjectBackend.mk 1 true true true)]
        (CommitEditState.mk false false true false true none true) "Split").1.bookDirty = false) :=
  ⟨rfl, C3_theorem [("Account", GncSqlObjectBackend.mk 1 true true true)]
    (CommitEditState.mk false false true false true none true) "Split"
    rfl rfl (by decide) (Or.inl rfl) rfl (by decide)⟩

/-- C9 counterexample: with the loading flag set but the book read-only,
`gnc_sql_commit_edit` takes the read-only branch first — the instance stays
dirty (it is not marked clean) and a rollback call is issued. -/
theorem C9_counterexample :
    (gnc_sql_commit_edit []
      (CommitEditState.mk true true true false true none true) "Account").1.instDirty = true ∧
    (gnc_sql_commit_edit []
      (CommitEditState.mk true true true false true none true) "Account").2 =
      [.evRollbackTx] := by
  decide

/-- C9 (amended): when the backend's loading flag is set and the book is not
read-only, `gnc_sql_commit_edit` only marks the instance clean and returns:
no transaction is begun, no registry callback runs, no connection call is
made, and every other state component is unchanged. -/
theorem C9_theorem (registry : Registry) (st : CommitEditState) (ty : String)
    (hro : st.bookReadOnly = false) (hld : st.loading = true) :
    gnc_sql_commit_edit registry st ty = ({ st with instDirty := false }, []) := by
  simp [gnc_sql_commit_edit, hro, hld]

/-- C9 witness: a loading, writable backend marks the dirty instance clean
with an empty event trace. -/
theorem C9_witness :
    (CommitEditState.mk false true true false true none true).loading = true ∧
    gnc_sql_commit_edit [("Account", GncSqlObjectBackend.mk 1 true true true)]
      (CommitEditState.mk false true true false true none true) "Account" =
      ({ CommitEditState.mk false true true false true none true with
          instDirty := false }, []) :=
  ⟨rfl, C9_theorem [("Account", GncSqlObjectBackend.mk 1 true true true)]
    (CommitEditState.mk false true true false true none true) "Account" rfl rfl⟩

/-- C5 counterexample: with a fixed-point-rational first descriptor named
`amt`, the update statement's WHERE clause holds the single pair
`(amt_num, "7")` — the column is `amt_num`, not the first descriptor's column
`amt` as claimed. -/
theorem C5_counterexample :
    (build_update_statement id "splits"
      (fun name => if name = "amt" then PropVal.pvNumeric (gnc_numeric_create 7 100)
        else PropVal.pvGuid (some "0123456789abcdef0123456789abcdef"))
      [GncSqlColumnTableEntry.mk "amt" CT_NUMERIC 0 COL_NNUL,
       GncSqlColumnTableEntry.mk "guid" CT_GUID 0 COL_PKEY]).whereConds =
      [("amt_num", "7")] ∧
    ([GncSqlColumnTableEntry.mk "amt" CT_NUMERIC 0 COL_NNUL,
      GncSqlColumnTableEntry.mk "guid" CT_GUID 0 COL_PKEY].head?.map
        GncSqlColumnTableEntry.col_name) = some "amt" ∧
    "amt_num" ≠ "amt" := by
  decide

/-- C5 (amended): the WHERE clause of the update statement is exactly the
first pair of the serialized column/value list; in particular, whenever the
first descriptor is not auto-increment and its handler serializes to exactly
the one pair `(its column, val)` — the conventional single-column unique
identifier — the WHERE clause consists of exactly that pair and no other
column appears in it. -/
theorem C5_theorem (quote : String → String) (table_name : String)
    (obj : GObject) (e : GncSqlColumnTableEntry)
    (rest : List GncSqlColumnTableEntry) (val : String)
    (hauto : e.flags &&& COL_AUTOINC = 0)
    (hone : get_handler_add_value e.col_type e.col_name (obj e.col_name) =
      [(e.col_name, val)]) :
    (build_update_statement quote table_name obj (e :: rest)).whereConds =
      [(e.col_name, val)] := by
  simp [build_update_statement, get_object_values, hauto, hone]

/-- C5 witness: a conventional table whose first descriptor is the GUID
primary key gets exactly that column/value pair as its WHERE clause. -/
theorem C5_witness :
    (GncSqlColumnTableEntry.mk "guid" CT_GUID 0 COL_PKEY).flags &&& COL_AUTOINC = 0 ∧
    get_handler_add_value CT_GUID "guid" (PropVal.pvGuid (some "0123abcd")) =
      [("guid", "0123abcd")] ∧
    (build_update_statement id "accounts"
      (fun name => if name = "guid" then PropVal.pvGuid (some "0123abcd")
        else PropVal.pvStr (some "Assets"))
      [GncSqlColumnTableEntry.mk "guid" CT_GUID 0 COL_PKEY,
       GncSqlColumnTableEntry.mk "name" CT_STRING 50 0]).whereConds =
      [("guid", "0123abcd")] :=
  ⟨by decide, by decide,
    C5_theorem id "accounts"
      (fun name => if name = "guid" then PropVal.pvGuid (some "0123abcd")
        else PropVal.pvStr (some "Assets"))
      (GncSqlColumnTableEntry.mk "guid" CT_GUID 0 COL_PKEY)
      [GncSqlColumnTableEntry.mk "name" CT_STRING 50 0] "0123abcd"
      (by decide) (by decide)⟩

/-- C4 counterexample: when the extension list repeats a fixed-list type
("Book"), that type's `initial_load` runs twice — once per ordered-list
loop — violating the claimed exactly-once invariant. -/
theorem C4_counterexample :
    gnc_sql_load_trace [("Book", GncSqlObjectBackend.mk 1 false true true)]
      ["Book"] = ["Book", "Book"] ∧
    (gnc_sql_load_trace [("Book", GncSqlObjectBackend.mk 1 false true true)]
      ["Book"]).count "Book" ≠ 1 := by
  decide

/-- C4 (amended): provided the extension list is duplicate-free and disjoint
from the fixed list, every listed type that is registered with an
`initial_load` callback runs exactly once; the listed part of the trace is
exactly the fixed list followed by the extension list (filtered to the types
that run); and every listed type runs before every registered type in
neither list (those run in registry-insertion order, as the trace's tail). -/
theorem C4_theorem (registry : Registry) (other : List String)
    (hnd : other.Nodup) (hdisj : ∀ t ∈ fixed_load_order, t ∉ other) :
    (∀ ty, (ty ∈ fixed_load_order ∨ ty ∈ other) → listed_runs registry ty = true →
      (gnc_sql_load_trace registry other).count ty = 1) ∧
    (gnc_sql_load_trace registry other).filter
        (fun t => decide (t ∈ fixed_load_order ∨ t ∈ other)) =
      (fixed_load_order ++ other).filter (listed_runs registry) ∧
    (∀ t u, (t ∈ fixed_load_order ∨ t ∈ other) →
      u ∉ fixed_load_order → u ∉ other →
      t ∈ gnc_sql_load_trace registry other →
      u ∈ gnc_sql_load_trace registry other →
      (gnc_sql_load_trace registry other).indexOf t <
        (gnc_sql_load_trace registry other).indexOf u) := by
  have hfixnd : fixed_load_order.Nodup := by decide
  refine ⟨?_, ?_, ?_⟩
  · intro ty hlisted hrun
    rw [gnc_sql_load_trace, List.count_append, List.count_append]
    have hsweep : ((registry.filter (initial_load_entry other)).map
        (fun e => e.1)).count ty = 0 := by
      refine List.count_eq_zero.mpr (fun hc => ?_)
      have := mem_sweep_not_listed registry other ty hc
      rcases hlisted with h | h
      · exact this.1 h
      · exact this.2 h
    rcases hlisted with hfix | hot
    · have h1 : (listed_load registry fixed_load_order).count ty = 1 := by
        rw [listed_load, List.count_filter hrun]
        exact List.count_eq_one_of_mem hfixnd hfix
      have h2 : (listed_load registry other).count ty = 0 := by
        refine List.count_eq_zero.mpr (fun hc => ?_)
        exact hdisj ty hfix (List.mem_filter.mp hc).1
      rw [h1, h2, hsweep]
    · have hnfix : ty ∉ fixed_load_order := fun hc => hdisj ty hc hot
      have h1 : (listed_load registry fixed_load_order).count ty = 0 := by
        refine List.count_eq_zero.mpr (fun hc => ?_)
        exact hnfix (List.mem_filter.mp hc).1
      have h2 : (listed_load registry other).count ty = 1 := by
        rw [listed_load, List.count_filter hrun]
        exact List.count_eq_one_of_mem hnd hot
      rw [h1, h2, hsweep]
  · rw [gnc_sql_load_trace, List.filter_append, List.filter_append]
    have h1 : (listed_load registry fixed_load_order).filter
        (fun t => decide (t ∈ fixed_load_order ∨ t ∈ other)) =
        listed_load registry fixed_load_order := by
      refine List.filter_eq_self.mpr (fun x hx => ?_)
      simp [Or.inl (List.mem_filter.mp hx).1]
    have h2 : (listed_load registry other).filter
        (fun t => decide (t ∈ fixed_load_order ∨ t ∈ other)) =
        listed_load registry other := by
      refine List.filter_eq_self.mpr (fun x hx => ?_)
      simp [Or.inr (List.mem_filter.mp hx).1]
    have h3 : ((registry.filter (initial_load_entry other)).map
        (fun e => e.1)).filter
        (fun t => decide (t ∈ fixed_load_order ∨ t ∈ other)) = [] := by
      refine List.filter_eq_nil_iff.mpr (fun x hx => ?_)
      have := mem_sweep_not_listed registry other x hx
      simp [this.1, this.2]
    rw [h1, h2, h3, List.filter_append, List.append_nil]
    rfl
  · intro t u hlisted hunf huno htmem humem
    have htrace : gnc_sql_load_trace registry other =
        (listed_load registry fixed_load_order ++ listed_load registry other) ++
          (registry.filter (initial_load_entry other)).map (fun e => e.1) := by
      rw [gnc_sql_load_trace, List.append_assoc]
    have ht2 : t ∈ listed_load registry fixed_load_order ++
        listed_load registry other := by
      rcases List.mem_append.mp (htrace ▸ htmem) with h | h
      · exact h
      · exfalso
        have := mem_sweep_not_listed registry other t h
        rcases hlisted with hf | ho
        · exact this.1 hf
        · exact this.2 ho
    have hu2 : u ∉ listed_load registry fixed_load_order ++
        listed_load registry other := by
      intro hc
      rcases List.mem_append.mp hc with h | h
      · exact hunf (List.mem_filter.mp h).1
      · exact huno (List.mem_filter.mp h).1
    rw [htrace, List.indexOf_append_of_mem ht2,
      List.indexOf_append_of_not_mem hu2]
    exact Nat.lt_of_lt_of_le (List.indexOf_lt_length.mpr ht2)
      (Nat.le_add_right _ _)

/-- C4 witness: with the business extension list `[GncBillTerm]`, a registry
holding Book and GncBillTerm loads Book exactly once. -/
theorem C4_witness :
    (["GncBillTerm"] : List String).Nodup ∧
    (gnc_sql_load_trace
      [("GncBillTerm", GncSqlObjectBackend.mk 1 false true true),
       ("Book", GncSqlObjectBackend.mk 1 false true true)]
      ["GncBillTerm"]).count "Book" = 1 :=
  ⟨by decide,
    (C4_theorem
      [("GncBillTerm", GncSqlObjectBackend.mk 1 false true true),
       ("Book", GncSqlObjectBackend.mk 1 false true true)]
      ["GncBillTerm"] (by decide) (by decide)).1 "Book"
      (Or.inl (by decide)) (by decide)⟩

end GncSql
